import Mathlib

/-!
Verification of the verisafe credential & authorization subsystem.

Shallow embedding of the Go sources and SQL queries:
* `service_tokens` SQL queries (src/unnamed/part_001)
* migration functions `cleanup_expired_service_tokens` (src/unnamed/part_002)
* `utils.ValidateJWT` (src/unnamed/part_018)
* `middleware.IsAuthenticated` and `middleware.HasPermission`
  (src/internal/middleware/auth_middleware.go)
* `handlers.ServiceTokenHandler` (src/internal/handlers/service_token_handler.go)
* social-account linking (src/internal/auth/auth_handler.go,
  src/database/queries/socials.sql)

Conventions: timestamps are `Int` (seconds); SQL `NULL` is `Option.none`;
UUIDs are `String`; a database table is a `List` of rows.  The SHA-256
digest `utils.HashToken` is an external primitive and is passed as an
explicit function parameter `hash : String → String`; closed theorems
instantiate it with a concrete function.
-/

namespace Verisafe

/-- Account kinds (`repository.AccountTypeHuman` / `AccountTypeBot`). -/
inductive AccountType where
  | human
  | bot
  deriving Repr, DecidableEq

/-- Row of the `accounts` table (fields the credential subsystem reads). -/
structure Account where
  id : String
  accType : AccountType
  deriving Repr, DecidableEq

/-- Row of the `service_tokens` table (schema from the migration in
src/unnamed/part_002).  The JSONB `metadata` column is modelled by the one
key the lifecycle code touches, `needs_rotation`; `rotation_policy` is not
consulted by any claim under verification and is omitted. -/
structure ServiceToken where
  id : String
  accountId : String
  name : String
  description : Option String
  tokenHash : String
  createdAt : Int
  lastUsedAt : Option Int
  expiresAt : Option Int
  rotatedAt : Option Int
  revokedAt : Option Int
  scopes : List String
  maxUses : Option Int
  useCount : Int
  ipWhitelist : Option (List String)
  userAgentPattern : Option String
  needsRotation : Bool
  deriving Repr, DecidableEq

/-- The WHERE clause of `GetServiceTokenByHash`:
`token_hash = $1 AND revoked_at IS NULL AND (expires_at IS NULL OR
expires_at > NOW()) AND (max_uses IS NULL OR use_count < max_uses)`. -/
def tokenHashRowMatches (h : String) (now : Int) (t : ServiceToken) : Bool :=
  t.tokenHash == h && t.revokedAt == none
    && (match t.expiresAt with
        | none => true
        | some e => decide (now < e))
    && (match t.maxUses with
        | none => true
        | some m => decide (t.useCount < m))

/-- `GetServiceTokenByHash :one` — digest lookup of an active token. -/
def getServiceTokenByHash (db : List ServiceToken) (h : String) (now : Int) :
    Option ServiceToken :=
  db.find? (tokenHashRowMatches h now)

/-- `GetServiceTokenByID :one`. -/
def getServiceTokenByID (db : List ServiceToken) (tokenId : String) :
    Option ServiceToken :=
  db.find? (fun t => t.id == tokenId)

/-- `UpdateServiceTokenLastUsed :exec` — `SET last_used_at = NOW(),
use_count = use_count + 1 WHERE id = $1`.  (Defined by the repository's
query file; no Go code in the repository ever calls it.) -/
def updateServiceTokenLastUsed (db : List ServiceToken) (tokenId : String)
    (now : Int) : List ServiceToken :=
  db.map fun t =>
    if t.id == tokenId then
      { t with lastUsedAt := some now, useCount := t.useCount + 1 }
    else t

/-- `RotateServiceToken :exec` — `SET token_hash = $2, rotated_at = NOW(),
created_at = NOW(), expires_at = $3, last_used_at = NULL, use_count = 0,
metadata = COALESCE(metadata, '\x7b\x7d'::jsonb) - 'needs_rotation'
WHERE id = $1`. -/
def rotateServiceToken (db : List ServiceToken) (tokenId : String)
    (newHash : String) (newExpiresAt : Option Int) (now : Int) :
    List ServiceToken :=
  db.map fun t =>
    if t.id == tokenId then
      { t with tokenHash := newHash, rotatedAt := some now, createdAt := now,
               expiresAt := newExpiresAt, lastUsedAt := none, useCount := 0,
               needsRotation := false }
    else t

/-- `RevokeServiceToken :exec` — `SET revoked_at = NOW() WHERE id = $1`. -/
def revokeServiceToken (db : List ServiceToken) (tokenId : String)
    (now : Int) : List ServiceToken :=
  db.map fun t => if t.id == tokenId then { t with revokedAt := some now } else t

/-- Body of the PL/pgSQL function `cleanup_expired_service_tokens`, applied
to a single row: `SET revoked_at = NOW() WHERE revoked_at IS NULL AND
expires_at IS NOT NULL AND expires_at < NOW()`. -/
def cleanupStep (now : Int) (t : ServiceToken) : ServiceToken :=
  if t.revokedAt == none
      && (match t.expiresAt with
          | none => false
          | some e => decide (e < now)) then
    { t with revokedAt := some now }
  else t

/-- `cleanup_expired_service_tokens()` — the expired-token sweep; a single
UPDATE, so it touches every qualifying row and deletes nothing. -/
def cleanupExpiredServiceTokens (db : List ServiceToken) (now : Int) :
    List ServiceToken :=
  db.map (cleanupStep now)

/-! ### JWT validation (src/unnamed/part_018, `utils.ValidateJWT`)

`jwt.ParseWithClaims` is an external library call; its outcome on a given
token string is abstracted into `JWTParse`.  The branches below the parse
call are translated verbatim. -/

/-- Abstracted result of `jwt.ParseWithClaims` on a token string. -/
inductive JWTParse where
  | failed (msg : String)
  | parsed (valid : Bool) (subject : String) (expiresAt : Option Int)
  deriving Repr, DecidableEq

/-- `utils.ValidateJWT` after the parse call: relays a parse error, then
checks `token.Valid`, a present `ExpiresAt`, and expiry against `now`,
each with its own error message.  Returns the claims' subject. -/
def validateJWT (p : JWTParse) (now : Int) : Except String String :=
  match p with
  | .failed msg => .error msg
  | .parsed valid subject expiresAt =>
    if !valid then
      .error "Invalid token you have. Create a valid one you must!"
    else
      match expiresAt with
      | none =>
        .error "Seems your access token is malformed please relogin to continue"
      | some e =>
        if e < now then .error "Your token expired it is. Refresh it you must"
        else .ok subject

/-! ### Authentication middleware (`middleware.IsAuthenticated`) -/

/-- Go `strings.HasPrefix`, on the character list of the string. -/
def strStartsWith (s p : String) : Bool :=
  s.toList.take p.toList.length == p.toList

/-- The credential material of an inbound request.  `remoteIP` and
`userAgent` are part of every request; whether the middleware consults
them is a property under verification. -/
structure AuthRequest where
  authHeader : String
  apiKey : String
  remoteIP : String
  userAgent : String
  deriving Repr, DecidableEq

/-- Outcome of the middleware: pass control to the next handler with a
resolved subject, or write a status code and an error message.
`panicNilExpiry` marks the nil-pointer dereference of
`serviceToken.ExpiresAt.Before(...)` when `expires_at` is NULL. -/
inductive AuthDecision where
  | proceed (subject : String)
  | reject (status : Nat) (msg : String)
  | panicNilExpiry
  deriving Repr, DecidableEq

/-- `middleware.IsAuthenticated`: dispatch on `Authorization: Bearer ...`
versus `X-API-Key`.  The Bearer branch relays `utils.ValidateJWT`'s error
message verbatim (`err.Error()`).  The X-API-Key branch hashes the key,
looks the digest up with `GetServiceTokenByHash`, re-checks revocation and
expiry, and loads the owning account.  The request's `remoteIP` and
`userAgent` are never read on this path, and the transaction (only
SELECTs) is rolled back, so no row is updated.  The subsequent role and
permission loads (storage collaborators, further 401s on failure) are
outside the credential checks and not modelled. -/
def isAuthenticated (hash : String → String) (tokens : List ServiceToken)
    (accounts : List Account) (jwtParse : String → JWTParse)
    (req : AuthRequest) (now : Int) : AuthDecision :=
  if strStartsWith req.authHeader "Bearer " then
    match validateJWT (jwtParse (req.authHeader.drop 7)) now with
    | .error msg => .reject 401 msg
    | .ok subject => .proceed subject
  else if req.apiKey != "" then
    match getServiceTokenByHash tokens (hash req.apiKey) now with
    | none => .reject 401 "Invalid or expired API key"
    | some t =>
      if t.revokedAt != none then .reject 401 "Invalid or expired API key"
      else
        match t.expiresAt with
        | none => .panicNilExpiry
        | some e =>
          if e < now then .reject 401 "Invalid or expired API key"
          else
            match accounts.find? (fun a => a.id == t.accountId) with
            | none => .reject 401 "Unauthorized"
            | some a => .proceed a.id
  else .reject 401 "Missing Authorization or X-API-Key header"

/-- One request through the middleware together with the token table it
leaves behind.  The middleware's transaction performs only SELECTs and is
rolled back (`defer tx.Rollback`); in particular
`updateServiceTokenLastUsed` is never invoked, so the table is returned
unchanged. -/
def isAuthenticatedStep (hash : String → String) (tokens : List ServiceToken)
    (accounts : List Account) (jwtParse : String → JWTParse)
    (req : AuthRequest) (now : Int) : AuthDecision × List ServiceToken :=
  (isAuthenticated hash tokens accounts jwtParse req now, tokens)

/-! ### Permission enforcement (`middleware.HasPermission`) -/

/-- Outcome of the permission gate. -/
inductive PermDecision where
  | proceed
  | reject (status : Nat) (msg : String)
  deriving Repr, DecidableEq

/-- `middleware.HasPermission`: walk the required permissions in order; the
first one missing from the context's permission list is rejected with 403. -/
def hasPermission : List String → List String → PermDecision
  | [], _ => .proceed
  | p :: rest, perms =>
    if perms.contains p then hasPermission rest perms
    else .reject 403
      "You do not have the necessary permissions to perform this action"

/-! ### Secret generation (`ServiceTokenHandler.generateSecureToken`)

`crypto/rand.Read` fills 32 bytes; they are a parameter here.  The
encoding is Go's `base64.URLEncoding` (RFC 4648 URL alphabet, with `=`
padding). -/

/-- The URL-safe base64 alphabet used by Go's `base64.URLEncoding`. -/
def base64urlAlphabet : List Char :=
  "ABCDEFGHIJKLMNOPQRSTUVWXYZabcdefghijklmnopqrstuvwxyz0123456789-_".toList

/-- Character for a 6-bit group. -/
def b64Char (n : Nat) : Char := base64urlAlphabet.getD n 'A'

/-- Base64url encoding of a byte list, 3 bytes per group, `=`-padded. -/
def base64urlChars : List (Fin 256) → List Char
  | [] => []
  | [b1] =>
    [b64Char (b1.val / 4), b64Char (b1.val % 4 * 16), '=', '=']
  | [b1, b2] =>
    [b64Char (b1.val / 4), b64Char (b1.val % 4 * 16 + b2.val / 16),
     b64Char (b2.val % 16 * 4), '=']
  | b1 :: b2 :: b3 :: rest =>
    b64Char (b1.val / 4) :: b64Char (b1.val % 4 * 16 + b2.val / 16)
      :: b64Char (b2.val % 16 * 4 + b3.val / 64) :: b64Char (b3.val % 64)
      :: base64urlChars rest

/-- Go `base64.URLEncoding.EncodeToString`. -/
def base64urlEncode (bs : List (Fin 256)) : String :=
  String.mk (base64urlChars bs)

/-- `generateSecureToken`: `"vst_" + base64.URLEncoding.EncodeToString(b)`
over the 32 random bytes `b`. -/
def generateSecureToken (randBytes : List (Fin 256)) : String :=
  "vst_" ++ base64urlEncode randBytes

/-! ### Service-token handlers (src/internal/handlers/service_token_handler.go) -/

/-- Go `strings.TrimSpace(s) == ""`: every character is whitespace. -/
def trimIsEmpty (s : String) : Bool :=
  s.toList.all Char.isWhitespace

/-- Go `strings.Split` on `"."`, over the character list. -/
def splitOnDot : List Char → List (List Char)
  | [] => [[]]
  | c :: cs =>
    if c == '.' then [] :: splitOnDot cs
    else
      match splitOnDot cs with
      | [] => [[c]]
      | p :: ps => (c :: p) :: ps

/-- `isValidScope`: non-blank and matched by `[a-zA-Z0-9:._-]+` anchored. -/
def isValidScope (scope : String) : Bool :=
  !(trimIsEmpty scope) && !(scope == "")
    && scope.toList.all fun c =>
      c.isAlphanum || c == ':' || c == '.' || c == '_' || c == '-'

/-- One octet of `isValidIP`: 1–3 characters, no leading zero unless the
octet is exactly "0". -/
def ipOctetOk (part : List Char) : Bool :=
  part.length ≤ 3 && !(part.length == 0)
    && !(part.headD 'x' == '0' && part.length > 1)

/-- `isValidIP`: the anchored pattern `(\d\x7b1,3\x7d\.)\x7b3\x7d\d\x7b1,3\x7d`
(four runs of 1–3 digits joined by dots) followed by the per-octet checks. -/
def isValidIP (ip : String) : Bool :=
  let parts := splitOnDot ip.toList
  parts.length == 4
    && parts.all (fun p => p.length ≥ 1 && p.length ≤ 3 && p.all Char.isDigit)
    && parts.all ipOctetOk

/-- The JSON body of `POST /api/v1/service-tokens`
(`handlers.ServiceTokenRequest`).  The `rotation_policy` and `metadata`
payloads are opaque JSON to the creation path and are not modelled. -/
structure ServiceTokenRequest where
  name : String
  description : Option String
  expiresInDays : Option Int
  scopes : List String
  maxUses : Option Int
  ipWhitelist : List String
  userAgentPattern : Option String
  deriving Repr, DecidableEq

/-- `validateServiceTokenRequest`: checks the name is non-blank, every
scope is valid, every whitelist entry is a valid IP, and the user-agent
pattern compiles (`regexp.Compile` is external; `regexCompiles` abstracts
it).  Note: neither `MaxUses` nor `ExpiresInDays` is checked, despite their
`validate:"omitempty,min=1"` struct tags. -/
def validateServiceTokenRequest (regexCompiles : String → Bool)
    (req : ServiceTokenRequest) : Option String :=
  if trimIsEmpty req.name then some "name is required"
  else
    match req.scopes.find? (fun s => !isValidScope s) with
    | some s => some ("invalid scope: " ++ s)
    | none =>
      match req.ipWhitelist.find? (fun ip => !isValidIP ip) with
      | some ip => some ("invalid IP address: " ++ ip)
      | none =>
        match req.userAgentPattern with
        | some pat =>
          if regexCompiles pat then none else some "invalid user agent pattern"
        | none => none

/-- Seconds per day, for Go's `time.AddDate` day arithmetic. -/
def daySeconds : Int := 86400

/-- Outcome of `ServiceTokenHandler.CreateServiceToken`. -/
inductive CreateResult where
  | accountNotFound
  | forbidden (msg : String)
  | badRequest (msg : String)
  | created (db : List ServiceToken) (record : ServiceToken) (rawToken : String)
  deriving Repr, DecidableEq

/-- `ServiceTokenHandler.CreateServiceToken`: loads the caller's account,
requires a bot account, validates the request, generates the secret,
computes the expiry (`expires_in_days` from now, defaulting to one year),
and inserts the row storing `HashToken(token)`; the raw token is returned
once in the response.  `use_count` starts at its column default 0. -/
def createServiceToken (hash : String → String) (regexCompiles : String → Bool)
    (tokens : List ServiceToken) (accounts : List Account) (accountId : String)
    (req : ServiceTokenRequest) (randBytes : List (Fin 256)) (newId : String)
    (now : Int) : CreateResult :=
  match accounts.find? (fun a => a.id == accountId) with
  | none => .accountNotFound
  | some account =>
    if account.accType != .bot then
      .forbidden "Only bot accounts can create service tokens"
    else
      match validateServiceTokenRequest regexCompiles req with
      | some msg => .badRequest msg
      | none =>
        let token := generateSecureToken randBytes
        let expiresAt :=
          match req.expiresInDays with
          | some d => now + d * daySeconds
          | none => now + 365 * daySeconds
        let record : ServiceToken :=
          { id := newId, accountId := accountId, name := req.name,
            description := req.description, tokenHash := hash token,
            createdAt := now, lastUsedAt := none, expiresAt := some expiresAt,
            rotatedAt := none, revokedAt := none, scopes := req.scopes,
            maxUses := req.maxUses, useCount := 0,
            ipWhitelist :=
              if req.ipWhitelist == [] then none else some req.ipWhitelist,
            userAgentPattern := req.userAgentPattern, needsRotation := false }
        .created (tokens ++ [record]) record token

/-- Outcome of `ServiceTokenHandler.RotateServiceToken`.  `retrieveError`
is the 500 "Failed to retrieve updated token" response: it carries the
committed token table, and no raw secret — the response body in this
branch holds only the error message. -/
inductive RotateResult where
  | notFound
  | accessDenied
  | retrieveError (db : List ServiceToken)
  deriving Repr, DecidableEq

/-- `ServiceTokenHandler.RotateServiceToken`: loads the token by id,
checks ownership (owner or `rotate:service_token:any`), generates a fresh
secret, runs the `RotateServiceToken` query with the new digest and the
token's existing `ExpiresAt` (the request body is never read, so the
caller cannot supply a new expiry here), and commits.  The handler then
re-reads the row via `repo`, but `repo` is bound to the transaction it
just committed, and a query on a committed pgx transaction always fails —
so every rotation that reaches the commit ends in the
"Failed to retrieve updated token" 500 branch: the committed rotation
stands, and the freshly generated raw secret is never written into any
response. -/
def rotateServiceTokenHandler (hash : String → String)
    (tokens : List ServiceToken) (tokenId callerId : String)
    (perms : List String) (randBytes : List (Fin 256)) (now : Int) :
    RotateResult :=
  match getServiceTokenByID tokens tokenId with
  | none => .notFound
  | some t =>
    if !(perms.contains "rotate:service_token:any") && t.accountId != callerId
    then .accessDenied
    else
      let newToken := generateSecureToken randBytes
      .retrieveError (rotateServiceToken tokens tokenId (hash newToken) t.expiresAt now)

/-- Outcome of `ServiceTokenHandler.RevokeServiceToken`. -/
inductive RevokeResult where
  | notFound
  | accessDenied
  | noContent (db : List ServiceToken)
  deriving Repr, DecidableEq

/-- `ServiceTokenHandler.RevokeServiceToken`: loads the token by id (no
filter on its revocation state), checks ownership (owner or
`revoke:service_token:any`), runs the `RevokeServiceToken` query and
returns 204 No Content. -/
def revokeServiceTokenHandler (tokens : List ServiceToken)
    (tokenId callerId : String) (perms : List String) (now : Int) :
    RevokeResult :=
  match getServiceTokenByID tokens tokenId with
  | none => .notFound
  | some t =>
    if !(perms.contains "revoke:service_token:any") && t.accountId != callerId
    then .accessDenied
    else .noContent (revokeServiceToken tokens tokenId now)

/-! ### Social-account linking (src/internal/auth/auth_handler.go,
src/database/queries/socials.sql) -/

/-- Row of the `socials` table (`user_id` is the primary key: the
provider-side external user id). -/
structure Social where
  userId : String
  accountId : String
  provider : String
  email : Option String
  name : Option String
  firstName : Option String
  lastName : Option String
  nickName : Option String
  description : Option String
  avatarUrl : Option String
  location : Option String
  accessToken : Option String
  accessTokenSecret : Option String
  refreshToken : Option String
  expiresAt : Option Int
  updatedAt : Int
  deriving Repr, DecidableEq

/-- The externally verified identity assertion (`gothic.User`). -/
structure GothUser where
  userId : String
  email : String
  name : String
  firstName : String
  lastName : String
  nickName : String
  description : String
  avatarUrl : String
  location : String
  accessToken : String
  accessTokenSecret : String
  refreshToken : String
  expiresAt : Int
  deriving Repr, DecidableEq

/-- `GetSocialByExternalUserID :one` — `WHERE user_id = $1`. -/
def getSocialByExternalUserID (db : List Social) (uid : String) :
    Option Social :=
  db.find? (fun s => s.userId == uid)

/-- Parameters of the `UpdateSocial :one` query as bound by the handler
(`repository.UpdateSocialParams`): the handler supplies the external user
id as the key parameter and the asserted profile values — all non-NULL Go
strings, so every `COALESCE($n, col)` in the SET list resolves to the new
value. -/
structure UpdateSocialParams where
  userId : String
  provider : String
  email : String
  name : String
  firstName : String
  lastName : String
  nickName : String
  description : String
  avatarUrl : String
  location : String
  accessToken : String
  accessTokenSecret : String
  refreshToken : String
  expiresAt : Int
  deriving Repr, DecidableEq

/-- `UpdateSocial :one`: overwrites the link row addressed by the
handler-supplied key (the external user id, the socials primary key) with
the asserted provider and profile snapshot, and touches `updated_at`.
Every SET entry is `col = COALESCE(param, col)` with a non-NULL parameter,
so each column — `provider` included — takes the new value. -/
def updateSocial (db : List Social) (p : UpdateSocialParams) (now : Int) :
    List Social :=
  db.map fun s =>
    if s.userId == p.userId then
      { s with provider := p.provider, email := some p.email,
               name := some p.name, firstName := some p.firstName,
               lastName := some p.lastName, nickName := some p.nickName,
               description := some p.description,
               avatarUrl := some p.avatarUrl, location := some p.location,
               accessToken := some p.accessToken,
               accessTokenSecret := some p.accessTokenSecret,
               refreshToken := some p.refreshToken,
               expiresAt := some p.expiresAt, updatedAt := now }
    else s

/-- `CreateSocial :one` — INSERT of a fresh link row bound to `account`. -/
def createSocial (db : List Social) (user : GothUser) (account : Account)
    (provider : String) (now : Int) : List Social :=
  db ++ [{ userId := user.userId, accountId := account.id,
           provider := provider, email := some user.email,
           name := some user.name, firstName := some user.firstName,
           lastName := some user.lastName, nickName := some user.nickName,
           description := some user.description,
           avatarUrl := some user.avatarUrl, location := some user.location,
           accessToken := some user.accessToken,
           accessTokenSecret := some user.accessTokenSecret,
           refreshToken := some user.refreshToken,
           expiresAt := some user.expiresAt, updatedAt := now }]

/-- Outcome of `Auth.handleSocialAccountManagement`. -/
inductive SocialOutcome where
  | created (db : List Social)
  | updated (db : List Social)
  deriving Repr, DecidableEq

/-- The `repository.UpdateSocialParams` literal the callback handler
builds from the asserted identity. -/
def updateSocialParamsFromUser (user : GothUser) (provider : String) :
    UpdateSocialParams :=
  { userId := user.userId, provider := provider, email := user.email,
    name := user.name, firstName := user.firstName,
    lastName := user.lastName, nickName := user.nickName,
    description := user.description, avatarUrl := user.avatarUrl,
    location := user.location, accessToken := user.accessToken,
    accessTokenSecret := user.accessTokenSecret,
    refreshToken := user.refreshToken, expiresAt := user.expiresAt }

/-- `Auth.handleSocialAccountManagement`: look up the link by external
user id; if absent, create it; otherwise update it with the asserted
values.  There is no comparison of the stored provider against the
asserted provider on either branch. -/
def handleSocialAccountManagement (db : List Social) (user : GothUser)
    (account : Account) (provider : String) (now : Int) : SocialOutcome :=
  match getSocialByExternalUserID db user.userId with
  | none => .created (createSocial db user account provider now)
  | some _ =>
    .updated (updateSocial db (updateSocialParamsFromUser user provider) now)

/-! ### General lemmas about the embedded operations -/

lemma tokenHashRowMatches_eq_true_iff (h : String) (now : Int) (t : ServiceToken) :
    tokenHashRowMatches h now t = true ↔
      t.tokenHash = h ∧ t.revokedAt = none
        ∧ (∀ e, t.expiresAt = some e → now < e)
        ∧ (∀ m, t.maxUses = some m → t.useCount < m) := by
  unfold tokenHashRowMatches
  rcases he : t.expiresAt with _ | e <;> rcases hm : t.maxUses with _ | m <;>
    simp [he, hm, Bool.and_eq_true, beq_iff_eq, and_assoc]

lemma getServiceTokenByHash_props (db : List ServiceToken) (h : String)
    (now : Int) (t : ServiceToken)
    (hfind : getServiceTokenByHash db h now = some t) :
    t.tokenHash = h ∧ t.revokedAt = none
      ∧ (∀ e, t.expiresAt = some e → now < e)
      ∧ (∀ m, t.maxUses = some m → t.useCount < m) :=
  (tokenHashRowMatches_eq_true_iff h now t).mp (List.find?_some hfind)

lemma hasPermission_proceed_iff (required perms : List String) :
    hasPermission required perms = .proceed ↔
      ∀ p ∈ required, perms.contains p = true := by
  induction required with
  | nil => simp [hasPermission]
  | cons p rest ih =>
    simp only [hasPermission, List.mem_cons, forall_eq_or_imp]
    by_cases hp : p ∈ perms <;> simp [hp, ih]

lemma hasPermission_reject_status (required perms : List String) (st : Nat)
    (msg : String) (h : hasPermission required perms = .reject st msg) :
    st = 403 := by
  induction required with
  | nil => simp [hasPermission] at h
  | cons p rest ih =>
    unfold hasPermission at h
    split at h
    · exact ih h
    · injection h with h1 h2
      exact h1.symm

lemma isAuthenticated_reject_status (hash : String → String)
    (tokens : List ServiceToken) (accounts : List Account)
    (jp : String → JWTParse) (req : AuthRequest) (now : Int) (st : Nat)
    (msg : String)
    (h : isAuthenticated hash tokens accounts jp req now = .reject st msg) :
    st = 401 := by
  unfold isAuthenticated at h
  repeat' split at h
  all_goals
    first
      | (injection h with h1 h2; exact h1.symm)
      | exact absurd h (by simp)

lemma getServiceTokenByID_rotate (db : List ServiceToken)
    (tokenId newHash : String) (ne : Option Int) (now : Int) (t : ServiceToken)
    (hfind : getServiceTokenByID db tokenId = some t) :
    getServiceTokenByID (rotateServiceToken db tokenId newHash ne now) tokenId
      = some { t with tokenHash := newHash, rotatedAt := some now,
                      createdAt := now, expiresAt := ne, lastUsedAt := none,
                      useCount := 0, needsRotation := false } := by
  induction db with
  | nil => simp [getServiceTokenByID] at hfind
  | cons u us ih =>
    by_cases hb : (u.id == tokenId) = true
    · have hu : u = t := by
        have hx := hfind
        unfold getServiceTokenByID at hx
        simp only [List.find?_cons, hb] at hx
        exact Option.some.inj hx
      subst hu
      unfold getServiceTokenByID rotateServiceToken
      rw [List.map_cons]
      simp only [List.find?_cons, hb, if_true]
    · have htail : getServiceTokenByID us tokenId = some t := by
        have hx := hfind
        unfold getServiceTokenByID at hx
        simpa only [List.find?_cons, hb] using hx
      have hres := ih htail
      unfold getServiceTokenByID rotateServiceToken at hres ⊢
      rw [List.map_cons]
      simp only [hb, if_false, Bool.false_eq_true]
      simp only [List.find?_cons, hb]
      exact hres

lemma getServiceTokenByHash_rotate_oldHash (db : List ServiceToken)
    (tokenId newHash : String) (ne : Option Int) (now now' : Int) (h : String)
    (hne : newHash ≠ h)
    (hother : ∀ u ∈ db, u.tokenHash = h → u.id = tokenId) :
    getServiceTokenByHash (rotateServiceToken db tokenId newHash ne now) h now'
      = none := by
  unfold getServiceTokenByHash
  rw [List.find?_eq_none]
  intro x hx
  simp only [rotateServiceToken, List.mem_map] at hx
  obtain ⟨u, hu, rfl⟩ := hx
  intro hmatch
  have hprops := (tokenHashRowMatches_eq_true_iff h now' _).mp hmatch
  by_cases hb : (u.id == tokenId) = true
  · simp only [hb, if_true] at hprops
    exact hne hprops.1
  · simp only [hb, if_false, Bool.false_eq_true] at hprops
    exact hb (beq_iff_eq.mpr (hother u hu hprops.1))

lemma getServiceTokenByHash_rotate_newHash (db : List ServiceToken)
    (tokenId newHash : String) (now now' : Int) (t : ServiceToken) (e : Int)
    (hfind : getServiceTokenByID db tokenId = some t)
    (hfresh : ∀ u ∈ db, u.tokenHash ≠ newHash)
    (hrev : t.revokedAt = none)
    (hexp : t.expiresAt = some e) (he : now' < e)
    (hmax : ∀ m, t.maxUses = some m → (0 : Int) < m) :
    getServiceTokenByHash (rotateServiceToken db tokenId newHash t.expiresAt now)
        newHash now'
      = some { t with tokenHash := newHash, rotatedAt := some now,
                      createdAt := now, expiresAt := t.expiresAt,
                      lastUsedAt := none, useCount := 0,
                      needsRotation := false } := by
  induction db with
  | nil => simp [getServiceTokenByID] at hfind
  | cons u us ih =>
    by_cases hb : (u.id == tokenId) = true
    · have hu : u = t := by
        have hx := hfind
        unfold getServiceTokenByID at hx
        simp only [List.find?_cons, hb] at hx
        exact Option.some.inj hx
      subst hu
      unfold getServiceTokenByHash rotateServiceToken
      rw [List.map_cons]
      simp only [List.find?_cons, hb, if_true]
      have hm : tokenHashRowMatches newHash now'
          ({ u with tokenHash := newHash, rotatedAt := some now,
                    createdAt := now, expiresAt := u.expiresAt,
                    lastUsedAt := none, useCount := 0,
                    needsRotation := false } : ServiceToken) = true := by
        apply (tokenHashRowMatches_eq_true_iff _ _ _).mpr
        refine ⟨rfl, hrev, ?_, ?_⟩
        · intro e' he'
          simp only [hexp] at he'
          cases he'
          exact he
        · intro m hm'
          exact hmax m hm'
      rw [hm]
    · have htail : getServiceTokenByID us tokenId = some t := by
        have hx := hfind
        unfold getServiceTokenByID at hx
        simpa only [List.find?_cons, hb] using hx
      have hres := ih htail (fun u hu => hfresh u (List.mem_cons_of_mem _ hu))
      unfold getServiceTokenByHash rotateServiceToken at hres ⊢
      rw [List.map_cons]
      simp only [hb, if_false, Bool.false_eq_true]
      simp only [List.find?_cons]
      have hnm : tokenHashRowMatches newHash now' u = false := by
        rcases hq : tokenHashRowMatches newHash now' u with _ | _
        · rfl
        · exact absurd ((tokenHashRowMatches_eq_true_iff _ _ _).mp hq).1
            (hfresh u (List.mem_cons_self _ _))
      rw [hnm]
      exact hres

lemma generateSecureToken_ne_empty (bs : List (Fin 256)) :
    generateSecureToken bs ≠ "" := by
  intro h
  have hlen := congrArg String.length h
  rw [generateSecureToken, String.length_append,
    show String.length "vst_" = 4 from rfl,
    show String.length "" = 0 from rfl] at hlen
  omega

/-! ### Concrete inputs used by the per-claim theorems -/

/-- A service token with a usage cap of one and no uses yet. -/
def c1Token : ServiceToken :=
  { id := "tok-1", accountId := "acc-1", name := "ci bot", description := none,
    tokenHash := "k1", createdAt := 0, lastUsedAt := none,
    expiresAt := some 100, rotatedAt := none, revokedAt := none,
    scopes := [], maxUses := some 1, useCount := 0, ipWhitelist := none,
    userAgentPattern := none, needsRotation := false }

/-- A request presenting `c1Token`'s secret via X-API-Key. -/
def c1Req : AuthRequest :=
  { authHeader := "", apiKey := "k1", remoteIP := "203.0.113.9",
    userAgent := "curl/8" }

/-- A service token restricted to one allowed IP and one user-agent pattern. -/
def c2Token : ServiceToken :=
  { id := "tok-2", accountId := "acc-2", name := "prod bot",
    description := none, tokenHash := "k2", createdAt := 0,
    lastUsedAt := none, expiresAt := some 100, rotatedAt := none,
    revokedAt := none, scopes := [], maxUses := none, useCount := 0,
    ipWhitelist := some ["192.168.1.100"],
    userAgentPattern := some "MyApp/.*", needsRotation := false }

/-- A request for `c2Token` from an IP outside the allowlist with a
non-matching user agent. -/
def c2Req : AuthRequest :=
  { authHeader := "", apiKey := "k2", remoteIP := "10.9.9.9",
    userAgent := "curl/8.0" }

/-- An existing external-identity link, provider `google`. -/
def c3Link : Social :=
  { userId := "ext-1", accountId := "acc-3", provider := "google",
    email := some "e@x.io", name := some "Old Name", firstName := none,
    lastName := none, nickName := none, description := none,
    avatarUrl := none, location := none, accessToken := none,
    accessTokenSecret := none, refreshToken := none, expiresAt := none,
    updatedAt := 0 }

/-- A login assertion carrying the same external user id as `c3Link`. -/
def c3User : GothUser :=
  { userId := "ext-1", email := "e@x.io", name := "New Name",
    firstName := "New", lastName := "Name", nickName := "nn",
    description := "d", avatarUrl := "av", location := "loc",
    accessToken := "at", accessTokenSecret := "ats", refreshToken := "rt",
    expiresAt := 50 }

/-- A revoked service token, about to be rotated. -/
def c5Token : ServiceToken :=
  { id := "tok-5", accountId := "acc-5", name := "ci bot",
    description := none, tokenHash := "old-secret-5", createdAt := 0,
    lastUsedAt := some 3, expiresAt := some 1000, rotatedAt := none,
    revokedAt := some 1, scopes := [], maxUses := none, useCount := 7,
    ipWhitelist := none, userAgentPattern := none, needsRotation := false }

/-- The raw secret generated from 32 zero bytes:
`"vst_" ++ base64url(0^32)`. -/
def zeroBytesRaw : String := "vst_AAAAAAAAAAAAAAAAAAAAAAAAAAAAAAAAAAAAAAAAAAA="

/-- `c5Token` after the rotation UPDATE commits at time 10 under the
identity digest. -/
def c5Rotated : ServiceToken :=
  { c5Token with tokenHash := zeroBytesRaw, createdAt := 10,
                 lastUsedAt := none, rotatedAt := some 10, useCount := 0 }

/-- An active, unrevoked token owned by `acc-5`. -/
def c5LiveToken : ServiceToken :=
  { id := "tok-5", accountId := "acc-5", name := "ci bot",
    description := none, tokenHash := "old-secret-5", createdAt := 0,
    lastUsedAt := some 3, expiresAt := some 1000, rotatedAt := none,
    revokedAt := none, scopes := [], maxUses := none, useCount := 7,
    ipWhitelist := none, userAgentPattern := none, needsRotation := false }

/-- `c5LiveToken` after the rotation UPDATE commits at time 10 under the
identity digest. -/
def c5LiveRotated : ServiceToken :=
  { c5LiveToken with tokenHash := zeroBytesRaw, createdAt := 10,
                     lastUsedAt := none, rotatedAt := some 10, useCount := 0 }

/-- An unrevoked token used for the revocation counterexample. -/
def c6Token : ServiceToken :=
  { id := "tok-6", accountId := "acc-6", name := "bot", description := none,
    tokenHash := "k6", createdAt := 0, lastUsedAt := none,
    expiresAt := some 100, rotatedAt := none, revokedAt := none,
    scopes := [], maxUses := none, useCount := 0, ipWhitelist := none,
    userAgentPattern := none, needsRotation := false }

/-- A creation request that passes `validateServiceTokenRequest` but asks
for `max_uses = 0` (the `validate:"omitempty,min=1"` tag is never
enforced). -/
def c7Req : ServiceTokenRequest :=
  { name := "t", description := none, expiresInDays := none, scopes := [],
    maxUses := some 0, ipWhitelist := [], userAgentPattern := none }

/-- The row `CreateServiceToken` persists for `c7Req` under the identity
digest at time 0 with 32 zero random bytes. -/
def c7Record : ServiceToken :=
  { id := "tok-7", accountId := "acc-7", name := "t", description := none,
    tokenHash := zeroBytesRaw, createdAt := 0, lastUsedAt := none,
    expiresAt := some 31536000, rotatedAt := none, revokedAt := none,
    scopes := [], maxUses := some 0, useCount := 0, ipWhitelist := none,
    userAgentPattern := none, needsRotation := false }

/-! ### The claims -/

/-- C1 (code bug): the spec says a successful X-API-Key validation
increments the use-counter and updates the last-used timestamp before
returning success, so a token with `max_uses = N` validates exactly `N`
times.  The middleware performs no write: its transaction holds only
SELECTs and is rolled back, and `UpdateServiceTokenLastUsed` has no
caller.  Here a token with `max_uses = 1` validates successfully twice in
a row — the table after the first success is unchanged (`use_count` still
0, `last_used_at` still unset) — while the repository's
`UpdateServiceTokenLastUsed` query, had it been called, would have
incremented the counter. -/
theorem C1_use_count_not_incremented_on_validate :
    isAuthenticatedStep (fun s => s) [c1Token] [{ id := "acc-1", accType := .bot }]
        (fun _ => .failed "e") c1Req 10
      = (.proceed "acc-1", [c1Token])
      ∧ isAuthenticatedStep (fun s => s) [c1Token]
          [{ id := "acc-1", accType := .bot }] (fun _ => .failed "e") c1Req 11
        = (.proceed "acc-1", [c1Token])
      ∧ (getServiceTokenByID [c1Token] "tok-1").map ServiceToken.useCount
        = some 0
      ∧ (getServiceTokenByID [c1Token] "tok-1").map ServiceToken.lastUsedAt
        = some none
      ∧ c1Token.maxUses = some 1
      ∧ updateServiceTokenLastUsed [c1Token] "tok-1" 10
        = [{ c1Token with lastUsedAt := some 10, useCount := 1 }] := by
  decide

/-- C2 (code bug): the spec says validation applies an IP-allowlist check
and a user-agent-pattern check when those restrictions are set.  The
middleware never reads the request's IP or user agent: a token whose
`ip_whitelist` is `["192.168.1.100"]` and whose `user_agent_pattern` is
`"MyApp/.*"` is accepted for a request from `10.9.9.9` with user agent
`curl/8.0`. -/
theorem C2_ip_allowlist_and_user_agent_not_checked :
    isAuthenticated (fun s => s) [c2Token] [{ id := "acc-2", accType := .bot }]
        (fun _ => .failed "e") c2Req 10
      = .proceed "acc-2"
      ∧ c2Token.ipWhitelist = some ["192.168.1.100"]
      ∧ c2Req.remoteIP = "10.9.9.9"
      ∧ (["192.168.1.100"].contains "10.9.9.9") = false
      ∧ c2Token.userAgentPattern = some "MyApp/.*"
      ∧ c2Req.userAgent = "curl/8.0" := by
  decide

/-- C3 counterexample: an external user id linked with provider `google`
logs in asserting provider `github`; the handler does not reject — it
takes the update branch and overwrites the stored provider with `github`. -/
theorem C3_provider_mismatch_not_rejected :
    c3Link.provider = "google"
      ∧ handleSocialAccountManagement [c3Link] c3User
          { id := "acc-3", accType := .human } "github" 100
        = .updated
            [{ c3Link with provider := "github", email := some c3User.email,
                           name := some c3User.name,
                           firstName := some c3User.firstName,
                           lastName := some c3User.lastName,
                           nickName := some c3User.nickName,
                           description := some c3User.description,
                           avatarUrl := some c3User.avatarUrl,
                           location := some c3User.location,
                           accessToken := some c3User.accessToken,
                           accessTokenSecret := some c3User.accessTokenSecret,
                           refreshToken := some c3User.refreshToken,
                           expiresAt := some c3User.expiresAt,
                           updatedAt := 100 }]
      ∧ ("google" : String) ≠ "github" := by
  decide

/-- C3 (corrected): whenever the asserted external user id is already
linked, the login is treated as a returning user regardless of provider:
the handler takes the update branch and the stored link's provider (and
profile snapshot) is overwritten with the asserted values; a provider
mismatch is never rejected. -/
theorem C3_returning_login_always_updates (db : List Social) (user : GothUser)
    (account : Account) (provider : String) (now : Int) (s : Social)
    (hfound : getSocialByExternalUserID db user.userId = some s) :
    handleSocialAccountManagement db user account provider now
        = .updated (updateSocial db (updateSocialParamsFromUser user provider) now)
      ∧ ∀ s' ∈ updateSocial db (updateSocialParamsFromUser user provider) now,
          s'.userId = user.userId → s'.provider = provider := by
  constructor
  · unfold handleSocialAccountManagement
    rw [hfound]
  · intro s' hs' hid
    simp only [updateSocial, updateSocialParamsFromUser, List.mem_map] at hs'
    obtain ⟨u, hu, rfl⟩ := hs'
    by_cases hb : (u.userId == user.userId) = true
    · simp [hb]
    · simp [hb] at hid ⊢
      exact absurd (beq_iff_eq.mpr hid) hb

/-- C3 witness: the theorem applied to the concrete link and login of the
counterexample. -/
theorem C3_returning_login_always_updates_witness :
    handleSocialAccountManagement [c3Link] c3User
        { id := "acc-3", accType := .human } "github" 100
        = .updated
            (updateSocial [c3Link] (updateSocialParamsFromUser c3User "github") 100)
      ∧ ∀ s' ∈ updateSocial [c3Link]
            (updateSocialParamsFromUser c3User "github") 100,
          s'.userId = c3User.userId → s'.provider = "github" :=
  C3_returning_login_always_updates [c3Link] c3User
    { id := "acc-3", accType := .human } "github" 100 c3Link (by decide)

/-- C4 counterexample: two failed session-token authentications receive
different 401 messages — a claims record with no expiry gets the
"malformed" message, an expired one the "expired" message — so a failed
attempt's response does reveal which specific check failed. -/
theorem C4_failure_messages_reveal_failing_check :
    isAuthenticated (fun s => s) [] [] (fun _ => .parsed true "sub" none)
        { authHeader := "Bearer x", apiKey := "", remoteIP := "203.0.113.9",
          userAgent := "curl/8" } 5
      = .reject 401
          "Seems your access token is malformed please relogin to continue"
      ∧ isAuthenticated (fun s => s) [] [] (fun _ => .parsed true "sub" (some 3))
          { authHeader := "Bearer x", apiKey := "", remoteIP := "203.0.113.9",
            userAgent := "curl/8" } 5
        = .reject 401 "Your token expired it is. Refresh it you must"
      ∧ ("Seems your access token is malformed please relogin to continue"
          : String)
        ≠ "Your token expired it is. Refresh it you must" := by
  decide

/-- C4 (corrected): the single-generic-message property holds only within
the X-API-Key token checks: a failed digest lookup — the outcome for
unknown, revoked, expired and over-cap secrets alike, since the lookup
filters all of them out — always yields the identical
"Invalid or expired API key"; but the Bearer path relays the JWT
validator's specific error message verbatim, and a missing credential
gets its own distinct message. -/
theorem C4_generic_message_only_on_api_key_path :
    (∀ (hash : String → String) (tokens : List ServiceToken)
       (accounts : List Account) (jp : String → JWTParse)
       (req : AuthRequest) (now : Int),
       strStartsWith req.authHeader "Bearer " = false →
       req.apiKey ≠ "" →
       getServiceTokenByHash tokens (hash req.apiKey) now = none →
       isAuthenticated hash tokens accounts jp req now
         = .reject 401 "Invalid or expired API key")
      ∧ (∀ (db : List ServiceToken) (h : String) (now : Int)
           (t : ServiceToken),
          getServiceTokenByHash db h now = some t →
          t.revokedAt = none ∧ (∀ e, t.expiresAt = some e → now < e)
            ∧ (∀ m, t.maxUses = some m → t.useCount < m))
      ∧ (∀ (hash : String → String) (tokens : List ServiceToken)
           (accounts : List Account) (jp : String → JWTParse)
           (req : AuthRequest) (now : Int) (msg : String),
           strStartsWith req.authHeader "Bearer " = true →
           validateJWT (jp (req.authHeader.drop 7)) now = .error msg →
           isAuthenticated hash tokens accounts jp req now = .reject 401 msg)
      ∧ (∀ (hash : String → String) (tokens : List ServiceToken)
           (accounts : List Account) (jp : String → JWTParse)
           (req : AuthRequest) (now : Int),
           strStartsWith req.authHeader "Bearer " = false →
           req.apiKey = "" →
           isAuthenticated hash tokens accounts jp req now
             = .reject 401 "Missing Authorization or X-API-Key header") := by
  refine ⟨?_, ?_, ?_, ?_⟩
  · intro hash tokens accounts jp req now h1 h2 h3
    unfold isAuthenticated
    simp only [h1, Bool.false_eq_true, if_false]
    have hne : (req.apiKey != "") = true := bne_iff_ne.mpr h2
    simp only [hne, if_true]
    rw [h3]
  · intro db h now t hfind
    exact (getServiceTokenByHash_props db h now t hfind).2
  · intro hash tokens accounts jp req now msg h1 h2
    unfold isAuthenticated
    simp only [h1, if_true]
    rw [h2]
  · intro hash tokens accounts jp req now h1 h2
    unfold isAuthenticated
    simp only [h1, Bool.false_eq_true, if_false]
    have hne : (req.apiKey != "") = false := by simp [h2]
    simp only [hne, Bool.false_eq_true, if_false]

/-- C5 (code bug): every rotation request that reaches the commit ends in
the 500 "Failed to retrieve updated token" branch, because the handler
re-reads the row through the repository bound to the transaction it has
just committed; so the freshly generated raw secret is never returned to
any caller, contradicting the rotation contract (and the repository's own
doc, whose rotation process ends with "Return new token to client").  The
committed UPDATE does replace the digest, reset the use-counter, clear
last-used, set the rotation timestamp and preserve the expiry, and the
previous secret stops validating — but no one holds the new secret, and
for a revoked token (rotation does not clear `revoked_at`) even the
committed fresh secret never validates. -/
theorem C5_rotation_endpoint_never_returns_secret :
    rotateServiceTokenHandler (fun s => s) [c5LiveToken] "tok-5" "acc-5" []
        (List.replicate 32 0) 10
      = .retrieveError [c5LiveRotated]
      ∧ c5LiveRotated.tokenHash = zeroBytesRaw
      ∧ c5LiveRotated.useCount = 0
      ∧ c5LiveRotated.lastUsedAt = none
      ∧ c5LiveRotated.rotatedAt = some 10
      ∧ c5LiveRotated.expiresAt = c5LiveToken.expiresAt
      ∧ isAuthenticated (fun s => s) [c5LiveRotated]
          [{ id := "acc-5", accType := .bot }] (fun _ => .failed "e")
          { authHeader := "", apiKey := "old-secret-5",
            remoteIP := "203.0.113.9", userAgent := "curl/8" } 20
        = .reject 401 "Invalid or expired API key"
      ∧ rotateServiceTokenHandler (fun s => s) [c5Token] "tok-5" "acc-5" []
          (List.replicate 32 0) 10
        = .retrieveError [c5Rotated]
      ∧ c5Token.revokedAt = some 1
      ∧ c5Rotated.revokedAt = some 1
      ∧ isAuthenticated (fun s => s) [c5Rotated]
          [{ id := "acc-5", accType := .bot }] (fun _ => .failed "e")
          { authHeader := "", apiKey := zeroBytesRaw,
            remoteIP := "203.0.113.9", userAgent := "curl/8" } 20
        = .reject 401 "Invalid or expired API key" := by
  decide

/-- C6 counterexample: revoking an already-revoked token is not a no-op on
the stored state — the second call overwrites `revoked_at` with the later
time, so the end state differs from the state the first revocation left. -/
theorem C6_second_revoke_changes_stored_state :
    revokeServiceToken (revokeServiceToken [c6Token] "tok-6" 5) "tok-6" 10
      ≠ revokeServiceToken [c6Token] "tok-6" 5 := by
  decide

/-- C6 (corrected): revoking through the handler returns success (204, no
error) for any owned token, already-revoked ones included, and revocation
at one instant is idempotent; after any revocation the token's
`revoked_at` carries the latest revocation time, and a revoked token is
never returned by the digest lookup — validation always fails regardless
of its expiry or usage state — but a second revocation at a later time
overwrites the revocation timestamp rather than leaving the state
unchanged. -/
theorem C6_revoke_no_error_and_validate_fails :
    (∀ (tokens : List ServiceToken) (tokenId callerId : String)
       (perms : List String) (now : Int) (t : ServiceToken),
       getServiceTokenByID tokens tokenId = some t →
       perms.contains "revoke:service_token:any" = true
         ∨ t.accountId = callerId →
       revokeServiceTokenHandler tokens tokenId callerId perms now
         = .noContent (revokeServiceToken tokens tokenId now))
      ∧ (∀ (tokens : List ServiceToken) (tokenId : String) (now : Int),
          revokeServiceToken (revokeServiceToken tokens tokenId now) tokenId now
            = revokeServiceToken tokens tokenId now)
      ∧ (∀ (tokens : List ServiceToken) (tokenId : String) (now : Int)
           (u : ServiceToken), u ∈ revokeServiceToken tokens tokenId now →
           u.id = tokenId → u.revokedAt = some now)
      ∧ (∀ (db : List ServiceToken) (h : String) (now : Int)
           (t : ServiceToken),
          getServiceTokenByHash db h now = some t → t.revokedAt = none) := by
  refine ⟨?_, ?_, ?_, ?_⟩
  · intro tokens tokenId callerId perms now t hfind hperm
    unfold revokeServiceTokenHandler
    rw [hfind]
    rcases hperm with hp | hp
    · have hm : "revoke:service_token:any" ∈ perms := by simpa using hp
      simp [hm]
    · simp [hp]
  · intro tokens tokenId now
    simp only [revokeServiceToken, List.map_map]
    apply List.map_congr_left
    intro t _
    by_cases hb : (t.id == tokenId) = true
    · simp [Function.comp, hb]
    · simp [Function.comp, hb]
  · intro tokens tokenId now u hu hid
    simp only [revokeServiceToken, List.mem_map] at hu
    obtain ⟨t, ht, rfl⟩ := hu
    by_cases hb : (t.id == tokenId) = true
    · simp [hb]
    · simp [hb] at hid ⊢
      exact absurd (beq_iff_eq.mpr hid) hb
  · intro db h now t hfind
    exact (getServiceTokenByHash_props db h now t hfind).2.1

/-- C7 (code bug): the `max_uses`/`expires_in_days` fields carry
`validate:"omitempty,min=1"` struct tags, but `validateServiceTokenRequest`
never checks them.  A creation request with `max_uses = 0` passes
validation, the token is created (201, raw secret returned once, stored
digest equal to the digest of the raw secret), yet validating that raw
secret immediately after creation fails: the digest lookup requires
`use_count < max_uses`, and `0 < 0` is false. -/
theorem C7_created_token_with_zero_max_uses_never_validates :
    createServiceToken (fun s => s) (fun _ => true) []
        [{ id := "acc-7", accType := .bot }] "acc-7" c7Req
        (List.replicate 32 0) "tok-7" 0
      = .created [c7Record] c7Record zeroBytesRaw
      ∧ c7Record.tokenHash = (fun s : String => s) zeroBytesRaw
      ∧ c7Req.maxUses = some 0
      ∧ getServiceTokenByHash [c7Record] ((fun s : String => s) zeroBytesRaw) 0
        = none
      ∧ isAuthenticated (fun s => s) [c7Record]
          [{ id := "acc-7", accType := .bot }] (fun _ => .failed "e")
          { authHeader := "", apiKey := zeroBytesRaw,
            remoteIP := "203.0.113.9", userAgent := "curl/8" } 0
        = .reject 401 "Invalid or expired API key" := by
  decide

/-- C8 (confirmed): the permission gate succeeds exactly when every
required permission is in the context's permission list (conjunctive, no
partial credit), every rejection it issues carries status 403, and every
rejection the authentication middleware issues carries status 401 — the
Forbidden outcome is distinct from the Unauthenticated one. -/
theorem C8_permission_gate_requires_all_permissions
    (required perms : List String) :
    (hasPermission required perms = .proceed ↔
        ∀ p ∈ required, perms.contains p = true)
      ∧ (∀ st msg, hasPermission required perms = .reject st msg → st = 403)
      ∧ (∀ (hash : String → String) (tokens : List ServiceToken)
           (accounts : List Account) (jp : String → JWTParse)
           (req : AuthRequest) (now : Int) (st : Nat) (msg : String),
           isAuthenticated hash tokens accounts jp req now = .reject st msg →
             st = 401)
      ∧ (403 : Nat) ≠ 401 := by
  refine ⟨hasPermission_proceed_iff required perms, ?_, ?_, by decide⟩
  · intro st msg h
    exact hasPermission_reject_status required perms st msg h
  · intro hash tokens accounts jp req now st msg h
    exact isAuthenticated_reject_status hash tokens accounts jp req now st msg h

/-- C9 (confirmed): one run of the expired-token sweep is a single UPDATE
over the table: it deletes nothing (same number of rows, each row's state
given by the per-row step), sets `revoked_at = now` on every row whose
expiry has passed and whose `revoked_at` is unset, and leaves already
revoked rows, rows with no expiry and rows whose expiry has not passed
unchanged. -/
theorem C9_expiry_sweep_soft_revokes (db : List ServiceToken) (now : Int) :
    cleanupExpiredServiceTokens db now = db.map (cleanupStep now)
      ∧ (cleanupExpiredServiceTokens db now).length = db.length
      ∧ (∀ t : ServiceToken, (cleanupStep now t).id = t.id)
      ∧ (∀ t : ServiceToken, t.revokedAt = none → ∀ e, t.expiresAt = some e →
          e < now → cleanupStep now t = { t with revokedAt := some now })
      ∧ (∀ t : ServiceToken, t.revokedAt ≠ none → cleanupStep now t = t)
      ∧ (∀ t : ServiceToken, t.expiresAt = none → cleanupStep now t = t)
      ∧ (∀ (t : ServiceToken) (e : Int), t.expiresAt = some e → ¬ e < now →
          cleanupStep now t = t) := by
  refine ⟨rfl, by simp [cleanupExpiredServiceTokens], ?_, ?_, ?_, ?_, ?_⟩
  · intro t
    unfold cleanupStep
    split <;> rfl
  · intro t hrev e hexp hlt
    simp [cleanupStep, hrev, hexp, hlt]
  · intro t hrev
    rcases hr : t.revokedAt with _ | x
    · exact absurd hr hrev
    · simp [cleanupStep, hr]
  · intro t hexp
    simp [cleanupStep, hexp]
  · intro t e hexp hnlt
    simp [cleanupStep, hexp, hnlt]

/-- C10 (confirmed): the rotation UPDATE also sets `created_at = NOW()`:
every row the rotation touches leaves with `created_at` equal to the
rotation time, so the record does not retain its original creation
timestamp. -/
theorem C10_rotation_resets_created_at (db : List ServiceToken)
    (tokenId newHash : String) (newExpiresAt : Option Int) (now : Int) :
    (∀ u ∈ rotateServiceToken db tokenId newHash newExpiresAt now,
        u.id = tokenId → u.createdAt = now)
      ∧ (∀ t ∈ db, t.id = tokenId →
          ({ t with tokenHash := newHash, rotatedAt := some now,
                    createdAt := now, expiresAt := newExpiresAt,
                    lastUsedAt := none, useCount := 0,
                    needsRotation := false } : ServiceToken)
            ∈ rotateServiceToken db tokenId newHash newExpiresAt now) := by
  constructor
  · intro u hu hid
    simp only [rotateServiceToken, List.mem_map] at hu
    obtain ⟨t, ht, rfl⟩ := hu
    by_cases hb : (t.id == tokenId) = true
    · simp [hb]
    · simp [hb] at hid ⊢
      exact absurd (beq_iff_eq.mpr hid) hb
  · intro t ht hid
    simp only [rotateServiceToken, List.mem_map]
    exact ⟨t, ht, by simp [hid]⟩

end Verisafe
